import Mathlib

/-!
# Verification of the ImpactBoard placeholder-resolution engine

Shallow embedding of `src/readme/placeholderResolver.ts` (the placeholder
parsing / privacy-filtering / resolution engine) together with the pieces of
its environment that the verified properties need (`ImpactYamlConfig` shape
from `src/types/schemas.ts`, the statistics record shapes from
`src/types/index.ts`, and the SVG reference helpers from the asset writer).

Strings are modelled as `List Char` (`Str`).  External collaborators
(statistics provider, privacy provider) are modelled as pure function
parameters, matching the spec's "fixed snapshot within one resolution pass"
assumption.  JavaScript `number` counters are modelled as `Nat` and scores as
`Int` (no floating point behaviour is relied on by any verified property).
-/

abbrev Str := List Char

/-- Convert a Lean string literal to the `Str` representation. -/
def chars (s : String) : Str := s.toList

/-- `[A-Z]` character class. -/
def isUpperAZ (c : Char) : Bool := 65 ≤ c.toNat && c.toNat ≤ 90

/-- `[a-z]` character class. -/
def isLowerAZ (c : Char) : Bool := 97 ≤ c.toNat && c.toNat ≤ 122

/-- `[A-Z_]` character class (selector token). -/
def isSelChar (c : Char) : Bool := isUpperAZ c || c.toNat == 95

/-- `[a-z_]` character class (field token). -/
def isFieldChar (c : Char) : Bool := isLowerAZ c || c.toNat == 95

/-- `\d` character class. -/
def isDigitCh (c : Char) : Bool := 48 ≤ c.toNat && c.toNat ≤ 57

/-- JavaScript `\s` (whitespace), restricted to the ASCII whitespace
characters; the engine only ever meets these. -/
def isSpaceCh (c : Char) : Bool :=
  c.toNat == 32 || c.toNat == 9 || c.toNat == 10 || c.toNat == 13 ||
  c.toNat == 11 || c.toNat == 12

/-- ASCII `String.prototype.toLowerCase`. -/
def toLowerStr (s : Str) : Str :=
  s.map (fun c => if isUpperAZ c then Char.ofNat (c.toNat + 32) else c)

/-- `String.prototype.trim` (ASCII whitespace). -/
def trimStr (s : Str) : Str :=
  (s.dropWhile isSpaceCh).reverse.dropWhile isSpaceCh |>.reverse

/-- `String.prototype.split(sep)` for a one-character separator. -/
def splitOnCh (sep : Char) : Str → List Str
  | [] => [[]]
  | c :: t =>
    let r := splitOnCh sep t
    if c = sep then [] :: r
    else match r with
      | [] => [[c]]
      | h :: t' => (c :: h) :: t'

/-- Decimal digit string, fuel-driven so that it reduces by computation; the
fuel always suffices because `n / 10 < n` for `n ≥ 10`. -/
def natDigitsAux : Nat → Nat → Str
  | 0, _ => []
  | f + 1, n =>
    if n < 10 then [Nat.digitChar n]
    else natDigitsAux f (n / 10) ++ [Nat.digitChar (n % 10)]

/-- Decimal digit string of a natural number (model of JavaScript
`String(n)` for an integral value). -/
def natDigits (n : Nat) : Str := natDigitsAux (n + 1) n

/-- Model of JavaScript `String(i)` for an integral value. -/
def intDigits (i : Int) : Str :=
  if i < 0 then '-' :: natDigits i.natAbs else natDigits i.natAbs

/-- Numeric value of a digit string (model of `parseInt` on an all-digit
capture group). -/
def digitsToNat (ds : Str) : Nat :=
  ds.foldl (fun a c => a * 10 + (c.toNat - 48)) 0

/-- Overwriting insert into an association list: model of `result[k] = v` on
a plain JavaScript object. -/
def assocSet (l : List (Str × Str)) (k v : Str) : List (Str × Str) :=
  match l with
  | [] => [(k, v)]
  | (k', v') :: t => if k' = k then (k, v) :: t else (k', v') :: assocSet t k v

/-- A parsed placeholder occurrence (`PlaceholderMatch` in the source).
`entity` is kept as a raw string: the source casts the capture group to the
union type without checking it. -/
structure PlaceholderMatch where
  full : Str
  entity : Str
  selector : Str
  field : Str
  options : List (Str × Str)
deriving DecidableEq

/-- `parseOptions` from the source: split the raw option text on commas,
split each part on `=`, trim, skip empty keys, last assignment wins. -/
def parseOptions (raw : Option Str) : List (Str × Str) :=
  match raw with
  | none => []
  | some r =>
    ((splitOnCh ',' r).map trimStr).foldl
      (fun acc part =>
        let kv := (splitOnCh '=' part).map trimStr
        let k := kv.headD []
        let v := (kv.get? 1).getD []
        if k = [] then acc else assocSet acc k v)
      []

/-- Option lookup, `p.options['key']` in the source. -/
def optGet (opts : List (Str × Str)) (k : Str) : Option Str :=
  (opts.find? (fun e => e.1 = k)).map (·.2)

/-- Try to match `PLACEHOLDER_REGEX` at the start of `cs`, returning the
parsed occurrence and the remaining suffix.

The regex is
`\x7b\x7bIMPACTBOARD:([A-Z]+)\.([A-Z_]+(?:\([^)]*\))?)\.?([a-z_]*)(?:\s*\|\s*([^\x7d]+))?\x7d\x7d`.
This transcription is deterministic (greedy, no backtracking); that is
faithful because each adjacent pair of regex elements draws from disjoint
character sets except for `_`, which both the selector class `[A-Z_]` and the
field class `[a-z_]` contain — and handing trailing underscores back from the
greedy selector run to the field run leaves every later position unchanged,
so backtracking can never turn a failure into a match. -/
def matchAt (cs : Str) : Option (PlaceholderMatch × Str) :=
  let pre := chars "\x7b\x7bIMPACTBOARD:"
  if pre.isPrefixOf cs then
    let r0 := cs.drop pre.length
    let (ent, r1) := r0.span isUpperAZ
    if ent = [] then none else
    match r1 with
    | '.' :: r2 =>
      let (selHead, r3) := r2.span isSelChar
      if selHead = [] then none else
      -- optional parenthesised selector argument `(?:\([^)]*\))?`
      let (sel, r4) :=
        match r3 with
        | '(' :: t =>
          let (inner, rest) := t.span (fun c => !(c == ')'))
          match rest with
          | ')' :: r' => (selHead ++ '(' :: (inner ++ [')']), r')
          | _ => (selHead, r3)
        | _ => (selHead, r3)
      -- optional `\.?`
      let r5 := match r4 with | '.' :: t => t | _ => r4
      let (fld, r6) := r5.span isFieldChar
      -- optional `(?:\s*\|\s*([^\x7d]+))?`
      let (rawOpts, r7) :=
        let ra := r6.dropWhile isSpaceCh
        match ra with
        | '|' :: t =>
          let rb := t.dropWhile isSpaceCh
          let (opts, rc) := rb.span (fun c => !(c == '\x7d'))
          if opts = [] then (none, r6) else (some opts, rc)
        | _ => ((none : Option Str), r6)
      match r7 with
      | '\x7d' :: '\x7d' :: rest =>
        some ({ full := cs.take (cs.length - rest.length), entity := ent,
                selector := sel, field := fld, options := parseOptions rawOpts },
              rest)
      | _ => none
    | _ => none
  else none

/-- The `while ((m = PLACEHOLDER_REGEX.exec(text)) !== null)` scan: find each
successive match, restarting one character later when the current position
does not begin a match.  Fuel-driven; `fuel = length + 1` always suffices
because every step consumes at least one character. -/
def scanMatches : Nat → Str → List PlaceholderMatch
  | 0, _ => []
  | f + 1, cs =>
    match matchAt cs with
    | some (m, rest) => m :: scanMatches f rest
    | none =>
      match cs with
      | [] => []
      | _ :: t => scanMatches f t

/-- `parsePlaceholder` from the source. -/
def parsePlaceholder (text : Str) : List PlaceholderMatch :=
  scanMatches (text.length + 1) text

/-- `parsePlaceholder` with the global regex's `lastIndex` state made
explicit: a `/g` regex's `exec` searches from `lastIndex`, and the final
`exec` of the loop (the one returning `null`) resets `lastIndex` to `0`.
The pattern has no anchors or lookbehind, so searching from `lastIndex` in
the full text equals searching the suffix. -/
def parsePlaceholderS (lastIndex : Nat) (text : Str) :
    List PlaceholderMatch × Nat :=
  (scanMatches (text.length + 1) (text.drop lastIndex), 0)

example : natDigits 1500 = chars "1500" := by decide
example : splitOnCh ',' (chars "a=1, b=2") = [chars "a=1", chars " b=2"] := by decide
example : trimStr (chars "  x y ") = chars "x y" := by decide
example : toLowerStr (chars "ACTIVE_USERS") = chars "active_users" := by decide

example :
    parsePlaceholder (chars "x \x7b\x7bIMPACTBOARD:USER.TOP(1).username | fallback=-, window=7d\x7d\x7d y") =
      [{ full := chars "\x7b\x7bIMPACTBOARD:USER.TOP(1).username | fallback=-, window=7d\x7d\x7d",
         entity := chars "USER", selector := chars "TOP(1)", field := chars "username",
         options := [(chars "fallback", chars "-"), (chars "window", chars "7d")] }] := by
  decide

example : parsePlaceholder (chars "\x7b\x7bIMPACTBOARD:ORG.active_users\x7d\x7d") = [] := by decide

example :
    parsePlaceholder (chars "\x7b\x7bIMPACTBOARD:ORG.ACTIVE_USERS\x7d\x7d") =
      [{ full := chars "\x7b\x7bIMPACTBOARD:ORG.ACTIVE_USERS\x7d\x7d",
         entity := chars "ORG", selector := chars "ACTIVE_USERS", field := [],
         options := [] }] := by decide

/-! ## Data model (`src/types/index.ts`) -/

/-- `AggregatedStats`: per-user, per-org, per-window statistics record.
Counters are `Nat`; scores are modelled as `Int` (the engine never depends
on fractional score values). -/
structure AggregatedStats where
  userId : Nat
  userLogin : Str
  userAvatarUrl : Str
  orgId : Nat
  period : Str
  startDate : Str
  endDate : Str
  totalCommits : Nat
  totalLinesAdded : Nat
  totalLinesRemoved : Nat
  totalPullRequestsMerged : Nat
  totalIssuesClosed : Nat
  totalIssuesOpened : Nat
  uniqueRepositories : Nat
  currentStreak : Nat
  longestStreak : Nat
  rawScore : Int
  weightedScore : Int
  rank : Str
  activeDays : Nat
deriving DecidableEq

/-- `RepoAggregatedStats`: per-repository statistics record. -/
structure RepoAggregatedStats where
  orgId : Nat
  repoId : Nat
  repoName : Str
  period : Str
  startDate : Str
  endDate : Str
  totalCommits : Nat
  totalPullRequestsMerged : Nat
  totalIssues : Nat
  totalLinesAdded : Nat
  totalLinesRemoved : Nat
  uniqueContributors : Nat
  lastActivity : Option Str
  status : Str
deriving DecidableEq

/-- `OrgStatsSummary`: one summary record per org per window. -/
structure OrgStatsSummary where
  orgId : Nat
  period : Str
  activeUsers : Nat
  totalCommits : Nat
  totalPullRequests : Nat
  totalLinesAdded : Nat
  totalRepositories : Nat
  healthScore : Nat
deriving DecidableEq

/-! ## Configuration (`ImpactYamlConfig` from `src/types/schemas.ts`),
modelled with the exact optionality the resolver's optional chains consume -/

structure UserSelectorsCfg where
  top_max : Nat
  allow_username : Bool
deriving DecidableEq

structure ReadmeAllowCfg where
  entities : List Str
  user_selectors : UserSelectorsCfg
  fields : List Str
  max_placeholders : Nat
deriving DecidableEq

structure ReadmeCfg where
  file : Str
  allow : ReadmeAllowCfg
deriving DecidableEq

structure YamlWindowsCfg where
  wdefault : Str
  allowed : List Str
deriving DecidableEq

structure YamlDataCfg where
  windows : Option YamlWindowsCfg
deriving DecidableEq

structure PublicUserRules where
  hide : Option (List Str)
deriving DecidableEq

structure YamlPrivacyCfg where
  public_users : Option (List (Str × PublicUserRules))
deriving DecidableEq

structure ImpactYamlConfig where
  mode : Str
  readme : Option ReadmeCfg
  data : Option YamlDataCfg
  privacy : Option YamlPrivacyCfg
deriving DecidableEq

/-- The inline default readme configuration of `resolvePlaceholders`
(`yaml.readme ?? { ... }`, lines 219–227 of the resolver). -/
def defaultReadmeCfg : ReadmeCfg :=
  { file := chars ".github/profile/README.md"
    allow :=
      { entities := [chars "USER", chars "REPO", chars "ORG"]
        user_selectors := { top_max := 5, allow_username := true }
        fields := [chars "username", chars "commits", chars "prs",
                   chars "streak", chars "loc_added", chars "impact"]
        max_placeholders := 100 } }

/-- Asset paths supplied by the caller (`PlaceholderContext.svgPaths`). -/
structure SvgPaths where
  leaderboard : Str
  leaderboardDark : Str
  heatmap : Str
  heatmapDark : Str
deriving DecidableEq

structure PlaceholderContext where
  svgPaths : Option SvgPaths
  basePath : Option Str
deriving DecidableEq

/-- The read-only external collaborators, fixed snapshots for one pass:
`repository.privacy.getOptedOutUsers`, `aggregator.getOrgStats`,
`repository.repoAggregates.getByOrg`, `repository.orgStats.getSummary`. -/
structure Providers where
  getOptedOutUsers : Nat → List Nat
  getOrgStats : Nat → Str → List AggregatedStats
  repoGetByOrg : Nat → Str → List RepoAggregatedStats
  orgGetSummary : Nat → Str → OrgStatsSummary

/-! ## Helper components of the resolver -/

/-- `getPeriodFromOptions`: the `window` option if present, truthy and in the
allowed list, else the default. -/
def getPeriodFromOptions (options : List (Str × Str)) (allowed : List Str)
    (def_ : Str) : Str :=
  match optGet options (chars "window") with
  | some opt => if opt ≠ [] ∧ opt ∈ allowed then opt else def_
  | none => def_

/-- `applyPrivacyFilter`: keep only entries whose user id is not opted out.
The source builds a `Set<number>` from the provider's list; membership is
the same. -/
def applyPrivacyFilter (_orgId : Nat) (stats : List AggregatedStats)
    (optedOut : List Nat) : List AggregatedStats :=
  stats.filter (fun s => !(optedOut.contains s.userId))

/-- Stable insertion of `a` in front of the first element `b` with
`r a b`. -/
def insertBy (r : α → α → Bool) (a : α) : List α → List α
  | [] => [a]
  | b :: t => if r a b then a :: b :: t else b :: insertBy r a t

/-- Stable sort placing `a` before `b` whenever `r a b` (`r` reads "`a` may
come before `b`").  JavaScript `Array.prototype.sort` is a stable sort, and
for the total preorders used by the engine a stable sort's output is unique,
so this insertion sort computes exactly the source's result. -/
def sortBy (r : α → α → Bool) (l : List α) : List α := l.foldr (insertBy r) []

/-- Strict lexicographic order on strings; `localeCompare` agrees with it on
the ASCII strings (dates, logins) the engine compares. -/
def strLt : Str → Str → Bool
  | [], [] => false
  | [], _ :: _ => true
  | _ :: _, [] => false
  | a :: s, b :: t =>
    if a.toNat < b.toNat then true
    else if b.toNat < a.toNat then false
    else strLt s t

/-- `a ≤ b` in the lexicographic order. -/
def strLe (a b : Str) : Bool := !(strLt b a)

/-- Stable descending sort by weighted score:
`.sort((a, b) => b.weightedScore - a.weightedScore)`. -/
def sortByScoreDesc (stats : List AggregatedStats) : List AggregatedStats :=
  sortBy (fun a b => b.weightedScore ≤ a.weightedScore) stats

/-- Match an anchored selector form `NAME\((\d+)\)$`, returning the digit
string of the argument. -/
def parseSelArgDigits (name : Str) (sel : Str) : Option Str :=
  if name.isPrefixOf sel then
    match sel.drop name.length with
    | '(' :: t =>
      let (ds, r) := t.span isDigitCh
      if ds ≠ [] ∧ r = [')'] then some ds else none
    | _ => none
  else none

/-- Numeric argument of an anchored selector form (`parseInt` of the digit
capture). -/
def parseSelArg (name : Str) (sel : Str) : Option Nat :=
  (parseSelArgDigits name sel).map digitsToNat

/-- Match an anchored text-argument selector form `NAME\(([^)]+)\)$`. -/
def parseSelText (name : Str) (sel : Str) : Option Str :=
  if name.isPrefixOf sel then
    match sel.drop name.length with
    | '(' :: t =>
      let (inner, r) := t.span (fun c => !(c == ')'))
      if inner ≠ [] ∧ r = [')'] then some inner else none
    | _ => none
  else none

/-- 1-indexed positional selection: `idx = n - 1`,
`if (idx >= 0 && idx < stats.length) return stats[idx] ?? null`. -/
def idxSel (stats : List AggregatedStats) (n : Nat) : Option AggregatedStats :=
  if n = 0 then none else stats.get? (n - 1)

/-- `selectUser` from the source: `TOP(n)`, `RANK(n)`, `USERNAME(x)`,
`NEW(n)` (stable sort descending by start date), `ACTIVE(n)` (stable sort
descending by end date); string comparison of dates models
`localeCompare`, which agrees with lexicographic order on the ASCII
`YYYY-MM-DD` date strings the engine stores. -/
def selectUser (stats : List AggregatedStats) (sel : Str) :
    Option AggregatedStats :=
  match parseSelArg (chars "TOP") sel with
  | some n => idxSel stats n
  | none =>
  match parseSelArg (chars "RANK") sel with
  | some n => idxSel stats n
  | none =>
  match parseSelText (chars "USERNAME") sel with
  | some login => stats.find? (fun s => s.userLogin = login)
  | none =>
  match parseSelArg (chars "NEW") sel with
  | some n => idxSel (sortBy (fun a b => strLe b.startDate a.startDate) stats) n
  | none =>
  match parseSelArg (chars "ACTIVE") sel with
  | some n => idxSel (sortBy (fun a b => strLe b.endDate a.endDate) stats) n
  | none => none

/-- 1-indexed positional selection on repository statistics. -/
def idxSelRepo (stats : List RepoAggregatedStats) (n : Nat) :
    Option RepoAggregatedStats :=
  if n = 0 then none else stats.get? (n - 1)

/-- `selectRepo` from the source: `TOP(n)`, `RANK(n)`, `NAME(x)`. -/
def selectRepo (stats : List RepoAggregatedStats) (sel : Str) :
    Option RepoAggregatedStats :=
  match parseSelArg (chars "TOP") sel with
  | some n => idxSelRepo stats n
  | none =>
  match parseSelArg (chars "RANK") sel with
  | some n => idxSelRepo stats n
  | none =>
  match parseSelText (chars "NAME") sel with
  | some name => stats.find? (fun s => s.repoName = name)
  | none => none

/-- `resolveUserField` from the source (`Math.round` on the integral score
model is the identity). -/
def resolveUserField (field : Str) (stat : AggregatedStats) : Str :=
  if field = chars "username" then '@' :: stat.userLogin
  else if field = chars "commits" then natDigits stat.totalCommits
  else if field = chars "prs" then natDigits stat.totalPullRequestsMerged
  else if field = chars "issues_closed" then natDigits stat.totalIssuesClosed
  else if field = chars "issues_open" then natDigits stat.totalIssuesOpened
  else if field = chars "loc_added" then natDigits stat.totalLinesAdded
  else if field = chars "loc_removed" then natDigits stat.totalLinesRemoved
  else if field = chars "streak" then natDigits stat.currentStreak
  else if field = chars "rank" then stat.rank
  else if field = chars "impact" then intDigits stat.weightedScore
  else if field = chars "repos" then natDigits stat.uniqueRepositories
  else if field = chars "last_active" then stat.endDate
  else []

/-- `resolveRepoField` from the source. -/
def resolveRepoField (field : Str) (stat : RepoAggregatedStats) : Str :=
  if field = chars "name" then stat.repoName
  else if field = chars "commits" then natDigits stat.totalCommits
  else if field = chars "prs" then natDigits stat.totalPullRequestsMerged
  else if field = chars "issues" then natDigits stat.totalIssues
  else if field = chars "loc_added" then natDigits stat.totalLinesAdded
  else if field = chars "contributors" then natDigits stat.uniqueContributors
  else if field = chars "status" then stat.status
  else []

/-- `resolveOrgField` from the source. -/
def resolveOrgField (field : Str) (summary : OrgStatsSummary) : Str :=
  if field = chars "active_users" then natDigits summary.activeUsers
  else if field = chars "total_commits" then natDigits summary.totalCommits
  else if field = chars "total_prs" then natDigits summary.totalPullRequests
  else if field = chars "total_loc_added" then natDigits summary.totalLinesAdded
  else if field = chars "total_repos" then natDigits summary.totalRepositories
  else if field = chars "health_score" then natDigits summary.healthScore
  else []

example : selectUser [] (chars "TOP(1)") = none := by decide
example : parseSelArg (chars "TOP") (chars "TOP(12)") = some 12 := by decide
example : parseSelArg (chars "TOP") (chars "RANK(2)") = none := by decide
example : parseSelText (chars "USERNAME") (chars "USERNAME(bob)") = some (chars "bob") := by decide

/-! ## `String.prototype.replace` with a string pattern -/

/-- Index of the first occurrence of `pat` in `s` (JavaScript `indexOf`;
an empty pattern matches at position 0). -/
def findSubstrIdx : Str → Str → Option Nat
  | s, pat =>
    if pat.isPrefixOf s then some 0
    else match s with
      | [] => none
      | _ :: t => (findSubstrIdx t pat).map (· + 1)

/-- GetSubstitution for a string pattern (no capture groups): `$$` is a
literal dollar, `$&` the matched text, a dollar before a backquote the
preceding text, `$'` the following text; any other `$x` (including `$1`,
since there are no captures) is literal. -/
def expandRepl : Str → Str → Str → Str → Str
  | [], _, _, _ => []
  | '$' :: c :: t, m, pre, suf =>
    if c = '$' then '$' :: expandRepl t m pre suf
    else if c = '&' then m ++ expandRepl t m pre suf
    else if c = Char.ofNat 96 then pre ++ expandRepl t m pre suf
    else if c = '\'' then suf ++ expandRepl t m pre suf
    else '$' :: c :: expandRepl t m pre suf
  | c :: t, m, pre, suf => c :: expandRepl t m pre suf

/-- JavaScript `s.replace(pat, rep)` with a string `pat`: replace only the
first occurrence, applying replacement-template expansion to `rep`; if
`pat` does not occur, return `s` unchanged. -/
def jsReplace (s pat rep : Str) : Str :=
  match findSubstrIdx s pat with
  | none => s
  | some i =>
    s.take i ++ expandRepl rep pat (s.take i) (s.drop (i + pat.length)) ++
      s.drop (i + pat.length)

example : jsReplace (chars "a b a") (chars "a") (chars "X") = chars "X b a" := by decide
example : jsReplace (chars "a b") (chars "c") (chars "X") = chars "a b" := by decide
example : jsReplace (chars "xay") (chars "a") (chars "$&$&") = chars "xaay" := by decide

/-! ## SVG reference helpers (`src/assets/svgWriter.ts`) -/

/-- `getSvgReference`: raw GitHub URL for an asset path. -/
def getSvgReference (orgLogin svgPath : Str) : Str :=
  chars "https://raw.githubusercontent.com/" ++ orgLogin ++
    chars "/.github/main/" ++ svgPath

/-- `getThemedSvgMarkdown`: theme-aware `<picture>` markup. -/
def getThemedSvgMarkdown (orgLogin lightPath darkPath alt : Str) : Str :=
  let lightUrl := getSvgReference orgLogin lightPath
  let darkUrl := getSvgReference orgLogin darkPath
  chars "<picture>\n  <source media=\"(prefers-color-scheme: dark)\" srcset=\"" ++
    darkUrl ++
    chars "\">\n  <source media=\"(prefers-color-scheme: light)\" srcset=\"" ++
    lightUrl ++ chars "\">\n  <img alt=\"" ++ alt ++ chars "\" src=\"" ++
    lightUrl ++ chars "\">\n</picture>"

/-! ## `formatValue` -/

/-- JavaScript `parseInt(s, 10)`: skip leading whitespace, optional sign,
then a maximal run of digits; `NaN` (here `none`) when no digit follows. -/
def parseIntJS (s : Str) : Option Int :=
  let s1 := s.dropWhile isSpaceCh
  let (neg, s2) : Bool × Str :=
    match s1 with
    | '-' :: t => (true, t)
    | '+' :: t => (false, t)
    | _ => (false, s1)
  let (ds, _) := s2.span isDigitCh
  if ds = [] then none
  else some (if neg then -(digitsToNat ds : Int) else (digitsToNat ds : Int))

/-- `(num / d).toFixed(1)` for positive `num`, modelled by round-half-up
rational arithmetic (the engine's counters are far below the range where
binary floating point would disagree on one decimal place). -/
def toFixed1 (num : Int) (d : Nat) : Str :=
  let scaled := (num * 10 + (d / 2 : Nat)) / (d : Int)
  intDigits (scaled / 10) ++ '.' :: intDigits (scaled % 10)

/-- Insert thousands separators (model of `toLocaleString` under the
default `en-US` grouping). -/
def groupDigits (ds : Str) : Str :=
  ((ds.reverse.toChunks 3).intersperse [',']).flatten.reverse

/-- `formatValue` from the source (exported but never invoked by
`resolvePlaceholders`).  The numeric argument case of the TypeScript
signature reaches this model through its decimal string. -/
def formatValue (value : Str) (format : Option Str) : Str :=
  match parseIntJS value with
  | none => value
  | some num =>
    if format = some (chars "compact") then
      if num ≥ 1000000 then toFixed1 num 1000000 ++ [Char.ofNat 77]
      else if num ≥ 1000 then toFixed1 num 1000 ++ [Char.ofNat 75]
      else intDigits num
    else if format = some (chars "number") then
      (if num < 0 then ['-'] else []) ++ groupDigits (natDigits num.natAbs)
    else if format = some (chars "badge") then
      Char.ofNat 96 :: intDigits num ++ [Char.ofNat 96]
    else if format = some (chars "fire") then
      if num > 0 then chars "🔥 " ++ intDigits num else intDigits num
    else value

example : formatValue (chars "1500") (some (chars "compact")) = chars "1.5K" := by decide
example : formatValue (chars "999") (some (chars "compact")) = chars "999" := by decide
example : formatValue (chars "2500000") (some (chars "compact")) = chars "2.5M" := by decide
example : formatValue (chars "abc") (some (chars "compact")) = chars "abc" := by decide

/-! ## The resolution orchestrator (`resolvePlaceholders`) -/

/-- Trace of the externally visible actions of one resolution pass: each
statistics fetch (`aggregator.getOrgStats`, `repository.repoAggregates
.getByOrg`, `repository.orgStats.getSummary`) as an `(orgId, window)` pair,
and each text substitution as the occurrence it was issued for together
with the replacement string passed to `replace`. -/
structure ResolveLog where
  fetches : List (Nat × Str)
  repoFetches : List (Nat × Str)
  summaryFetches : List (Nat × Str)
  replacements : List (PlaceholderMatch × Str)
deriving DecidableEq

def ResolveLog.empty : ResolveLog := ⟨[], [], [], []⟩

/-- `result = result.replace(p.full, rep)`, recorded in the trace. -/
def replaceWith (st : Str × ResolveLog) (p : PlaceholderMatch) (rep : Str) :
    Str × ResolveLog :=
  (jsReplace st.1 p.full rep,
   { st.2 with replacements := st.2.replacements ++ [(p, rep)] })

/-- `yaml.privacy?.public_users?.[login]?.hide?.includes(field)`. -/
def hiddenByPublicRules (yaml : ImpactYamlConfig) (login field : Str) : Bool :=
  match (((yaml.privacy.bind (·.public_users)).bind
      (fun pu => (pu.find? (fun e => e.1 = login)).map (·.2))).bind (·.hide)) with
  | some hs => field ∈ hs
  | none => false

/-- One iteration of the `for (const p of limited)` loop of
`resolvePlaceholders` (lines 242–352 of the resolver), acting on the working
text and the trace. -/
def resolveOne (orgId : Nat) (orgLogin : Str) (yaml : ImpactYamlConfig)
    (rc : ReadmeCfg) (defaultWindow : Str) (allowedWindows : List Str)
    (optedOut : List Nat) (P : Providers) (ctx : Option PlaceholderContext)
    (st : Str × ResolveLog) (p : PlaceholderMatch) : Str × ResolveLog :=
  let fallback := (optGet p.options (chars "fallback")).getD []
  if p.entity = chars "SVG" then
    match ctx with
    | some c =>
      match c.svgPaths with
      | some sp =>
        let svgType := toLowerStr p.selector
        if svgType = chars "leaderboard_themed" ∧ sp.leaderboard ≠ [] ∧
            sp.leaderboardDark ≠ [] then
          replaceWith st p (getThemedSvgMarkdown orgLogin sp.leaderboard
            sp.leaderboardDark (chars "Leaderboard"))
        else if svgType = chars "heatmap_themed" ∧ sp.heatmap ≠ [] ∧
            sp.heatmapDark ≠ [] then
          replaceWith st p (getThemedSvgMarkdown orgLogin sp.heatmap
            sp.heatmapDark (chars "Activity Heatmap"))
        else if svgType = chars "leaderboard" ∧ sp.leaderboard ≠ [] then
          replaceWith st p (getSvgReference orgLogin sp.leaderboard)
        else if svgType = chars "heatmap" ∧ sp.heatmap ≠ [] then
          replaceWith st p (getSvgReference orgLogin sp.heatmap)
        else if svgType = chars "leaderboard_dark" ∧ sp.leaderboardDark ≠ [] then
          replaceWith st p (getSvgReference orgLogin sp.leaderboardDark)
        else if svgType = chars "heatmap_dark" ∧ sp.heatmapDark ≠ [] then
          replaceWith st p (getSvgReference orgLogin sp.heatmapDark)
        else replaceWith st p fallback
      | none => replaceWith st p fallback
    | none => replaceWith st p fallback
  else if p.entity ∉ rc.allow.entities then
    -- `continue`: the occurrence is skipped, no substitution happens
    st
  else
    let window := getPeriodFromOptions p.options allowedWindows defaultWindow
    if p.entity = chars "USER" then
      let statsRaw := P.getOrgStats orgId window
      let st := (st.1, { st.2 with fetches := st.2.fetches ++ [(orgId, window)] })
      let stats := sortByScoreDesc (applyPrivacyFilter orgId statsRaw optedOut)
      let topMax := rc.allow.user_selectors.top_max
      let overTop :=
        match parseSelArg (chars "TOP") p.selector with
        | some n => decide (topMax < n)
        | none => false
      if overTop then replaceWith st p fallback
      else
        match selectUser stats p.selector with
        | none => replaceWith st p fallback
        | some sel =>
          if hiddenByPublicRules yaml sel.userLogin p.field then
            replaceWith st p fallback
          else
            let value := resolveUserField p.field sel
            replaceWith st p (if value ≠ [] then value else fallback)
    else if p.entity = chars "REPO" then
      let repoStats := P.repoGetByOrg orgId window
      let st := (st.1,
        { st.2 with repoFetches := st.2.repoFetches ++ [(orgId, window)] })
      let sorted := sortBy (fun a b => b.totalCommits ≤ a.totalCommits) repoStats
      match selectRepo sorted p.selector with
      | none => replaceWith st p fallback
      | some sel =>
        let value := resolveRepoField p.field sel
        replaceWith st p (if value ≠ [] then value else fallback)
    else if p.entity = chars "ORG" then
      let summary := P.orgGetSummary orgId window
      let st := (st.1,
        { st.2 with summaryFetches := st.2.summaryFetches ++ [(orgId, window)] })
      let field := toLowerStr p.selector
      let value := resolveOrgField field summary
      replaceWith st p (if value ≠ [] then value else fallback)
    else st

/-- `resolvePlaceholders` with the global regex state threaded and the
action trace exposed.  Returns (resolved text, regex `lastIndex` after the
call, trace). -/
def resolvePlaceholdersS (regexLast : Nat) (orgId _installationId : Nat)
    (orgLogin : Str) (readmeContent : Str) (yaml : ImpactYamlConfig)
    (ctx : Option PlaceholderContext) (P : Providers) :
    Str × Nat × ResolveLog :=
  -- If not in full mode, leave content unchanged (regex never touched)
  if yaml.mode ≠ chars "full" then (readmeContent, regexLast, ResolveLog.empty)
  else
    let parsed := parsePlaceholderS regexLast readmeContent
    let ms := parsed.1
    if ms = [] then (readmeContent, parsed.2, ResolveLog.empty)
    else
      let readmeConfig := yaml.readme.getD defaultReadmeCfg
      let maxPlaceholders := readmeConfig.allow.max_placeholders
      let limited := ms.take maxPlaceholders
      let defaultWindow :=
        match yaml.data with
        | some d => match d.windows with
          | some w => w.wdefault
          | none => chars "30d"
        | none => chars "30d"
      let allowedWindows :=
        match yaml.data with
        | some d => match d.windows with
          | some w => w.allowed
          | none => [chars "7d", chars "30d", chars "90d", chars "all-time"]
        | none => [chars "7d", chars "30d", chars "90d", chars "all-time"]
      let optedOut := P.getOptedOutUsers orgId
      let out := limited.foldl
        (resolveOne orgId orgLogin yaml readmeConfig defaultWindow
          allowedWindows optedOut P ctx)
        (readmeContent, ResolveLog.empty)
      (out.1, parsed.2, out.2)

/-- The resolved text of a pass started with the regex in its module-load
state (`lastIndex = 0`). -/
def resolvePlaceholders (orgId installationId : Nat) (orgLogin : Str)
    (readmeContent : Str) (yaml : ImpactYamlConfig)
    (ctx : Option PlaceholderContext) (P : Providers) : Str :=
  (resolvePlaceholdersS 0 orgId installationId orgLogin readmeContent yaml
    ctx P).1

/-! ## Concrete fixtures used by witnesses and counterexamples -/

/-- A per-user statistics record with the fields the engine reads set
explicitly and the rest fixed. -/
def mkUser (id : Nat) (login : String) (commits : Nat) (score : Int) :
    AggregatedStats :=
  { userId := id, userLogin := chars login, userAvatarUrl := [], orgId := 1
    period := chars "30d", startDate := chars "2025-01-01"
    endDate := chars "2025-01-30", totalCommits := commits
    totalLinesAdded := 0, totalLinesRemoved := 0, totalPullRequestsMerged := 0
    totalIssuesClosed := 0, totalIssuesOpened := 0, uniqueRepositories := 0
    currentStreak := 0, longestStreak := 0, rawScore := score
    weightedScore := score, rank := chars "Gold", activeDays := 0 }

def sampleSummary : OrgStatsSummary :=
  { orgId := 1, period := chars "30d", activeUsers := 7, totalCommits := 100
    totalPullRequests := 10, totalLinesAdded := 1000, totalRepositories := 3
    healthScore := 88 }

/-- Provider snapshot returning the given user statistics for every window,
no repo statistics, `sampleSummary`, and the given opted-out set. -/
def provWith (stats : List AggregatedStats) (opted : List Nat) : Providers :=
  { getOptedOutUsers := fun _ => opted
    getOrgStats := fun _ _ => stats
    repoGetByOrg := fun _ _ => []
    orgGetSummary := fun _ _ => sampleSummary }

/-- A readme configuration with the given allowed entities, `top_max` and
`max_placeholders`. -/
def rcWith (ents : List Str) (topMax maxPl : Nat) : ReadmeCfg :=
  { file := []
    allow := { entities := ents
               user_selectors := { top_max := topMax, allow_username := true }
               fields := [], max_placeholders := maxPl } }

/-- A full-mode configuration with the given readme section. -/
def fullYaml (rc : ReadmeCfg) : ImpactYamlConfig :=
  { mode := chars "full", readme := some rc, data := none, privacy := none }

def aliceBob : List AggregatedStats :=
  [mkUser 1 "alice" 1500 10, mkUser 2 "bob" 7 5]

example :
    resolvePlaceholders 1 9 (chars "acme")
      (chars "Top: \x7b\x7bIMPACTBOARD:USER.TOP(1).username\x7d\x7d")
      (fullYaml (rcWith [chars "USER"] 5 100)) none (provWith aliceBob []) =
      chars "Top: @alice" := by decide

example :
    resolvePlaceholders 1 9 (chars "acme")
      (chars "Top: \x7b\x7bIMPACTBOARD:USER.TOP(1).username\x7d\x7d")
      (fullYaml (rcWith [chars "USER"] 5 100)) none (provWith aliceBob [1]) =
      chars "Top: @bob" := by decide

example :
    resolvePlaceholders 1 9 (chars "acme")
      (chars "N: \x7b\x7bIMPACTBOARD:ORG.ACTIVE_USERS\x7d\x7d")
      (fullYaml (rcWith [chars "ORG"] 5 100)) none (provWith [] []) =
      chars "N: 7" := by decide

/-! ## Lemmas -/

theorem insertBy_perm (r : α → α → Bool) (a : α) (l : List α) :
    (insertBy r a l).Perm (a :: l) := by
  induction l with
  | nil => simp [insertBy]
  | cons b t ih =>
    simp only [insertBy]
    split
    · exact List.Perm.refl _
    · exact (ih.cons b).trans (List.Perm.swap a b t)

theorem sortBy_perm (r : α → α → Bool) (l : List α) : (sortBy r l).Perm l := by
  induction l with
  | nil => simp [sortBy]
  | cons a t ih =>
    exact (insertBy_perm r a (sortBy r t)).trans (ih.cons a)

theorem mem_of_sortBy {r : α → α → Bool} {l : List α} {x : α}
    (h : x ∈ sortBy r l) : x ∈ l := (sortBy_perm r l).mem_iff.mp h

theorem length_sortBy (r : α → α → Bool) (l : List α) :
    (sortBy r l).length = l.length := (sortBy_perm r l).length_eq

theorem idxSel_mem {l : List AggregatedStats} {n : Nat} {u : AggregatedStats}
    (h : idxSel l n = some u) : u ∈ l := by
  unfold idxSel at h
  split at h
  · exact absurd h (by simp)
  · exact List.get?_mem h

/-- Any user produced by `selectUser` is an element of the input list. -/
theorem selectUser_mem {stats : List AggregatedStats} {sel : Str}
    {u : AggregatedStats} (h : selectUser stats sel = some u) : u ∈ stats := by
  unfold selectUser at h
  cases h1 : parseSelArg (chars "TOP") sel with
  | some n => rw [h1] at h; exact idxSel_mem h
  | none =>
  rw [h1] at h
  cases h2 : parseSelArg (chars "RANK") sel with
  | some n => rw [h2] at h; exact idxSel_mem h
  | none =>
  rw [h2] at h
  cases h3 : parseSelText (chars "USERNAME") sel with
  | some login =>
    rw [h3] at h
    exact List.mem_of_find?_eq_some h
  | none =>
  rw [h3] at h
  cases h4 : parseSelArg (chars "NEW") sel with
  | some n => rw [h4] at h; exact mem_of_sortBy (idxSel_mem h)
  | none =>
  rw [h4] at h
  cases h5 : parseSelArg (chars "ACTIVE") sel with
  | some n => rw [h5] at h; exact mem_of_sortBy (idxSel_mem h)
  | none => rw [h5] at h; exact absurd h (by simp)

/-- Elements surviving the privacy filter are input elements whose user id
is not opted out. -/
theorem mem_applyPrivacyFilter {orgId : Nat} {L : List AggregatedStats}
    {S : List Nat} {u : AggregatedStats}
    (h : u ∈ applyPrivacyFilter orgId L S) : u ∈ L ∧ u.userId ∉ S := by
  unfold applyPrivacyFilter at h
  have := List.mem_filter.mp h
  refine ⟨this.1, ?_⟩
  have hb := this.2
  simp only [Bool.not_eq_true'] at hb
  intro hmem
  have ht : S.contains u.userId = true := List.elem_eq_true_of_mem hmem
  rw [ht] at hb
  cases hb

theorem digitChar_isDigit {d : Nat} (h : d < 10) :
    isDigitCh (Nat.digitChar d) = true := by
  interval_cases d <;> decide

theorem digitChar_toNat {d : Nat} (h : d < 10) :
    (Nat.digitChar d).toNat = 48 + d := by
  interval_cases d <;> decide

theorem natDigitsAux_digits {f n : Nat} (h : n < f) :
    ∀ c ∈ natDigitsAux f n, isDigitCh c = true := by
  induction f generalizing n with
  | zero => omega
  | succ f ih =>
    intro c hc
    unfold natDigitsAux at hc
    split at hc
    · rcases List.mem_singleton.mp hc with rfl
      exact digitChar_isDigit (by omega)
    · rcases List.mem_append.mp hc with h1 | h1
      · exact ih (by omega) c h1
      · rcases List.mem_singleton.mp h1 with rfl
        exact digitChar_isDigit (Nat.mod_lt _ (by omega))

theorem natDigitsAux_ne_nil {f n : Nat} (h : n < f) :
    natDigitsAux f n ≠ [] := by
  cases f with
  | zero => omega
  | succ f =>
    unfold natDigitsAux
    split <;> simp

theorem digitsToNat_append (xs : Str) (c : Char) :
    digitsToNat (xs ++ [c]) = digitsToNat xs * 10 + (c.toNat - 48) := by
  unfold digitsToNat
  rw [List.foldl_append]
  rfl

theorem digitsToNat_natDigitsAux {f n : Nat} (h : n < f) :
    digitsToNat (natDigitsAux f n) = n := by
  induction f generalizing n with
  | zero => omega
  | succ f ih =>
    unfold natDigitsAux
    split
    · next hn =>
      show digitsToNat ([] ++ [Nat.digitChar n]) = n
      rw [digitsToNat_append, digitChar_toNat hn]
      simp [digitsToNat]
    · next hn =>
      rw [digitsToNat_append, ih (by omega),
          digitChar_toNat (Nat.mod_lt _ (by omega))]
      omega

theorem natDigits_digits (n : Nat) : ∀ c ∈ natDigits n, isDigitCh c = true :=
  natDigitsAux_digits (Nat.lt_succ_self n)

theorem natDigits_ne_nil (n : Nat) : natDigits n ≠ [] :=
  natDigitsAux_ne_nil (Nat.lt_succ_self n)

theorem digitsToNat_natDigits (n : Nat) : digitsToNat (natDigits n) = n :=
  digitsToNat_natDigitsAux (Nat.lt_succ_self n)

theorem isPrefixOf_self_append (l x : Str) : l.isPrefixOf (l ++ x) = true := by
  induction l with
  | nil => simp [List.isPrefixOf]
  | cons a t ih => simp [List.isPrefixOf, ih]

theorem takeWhile_all_append {p : Char → Bool} {ds : Str}
    (h : ∀ c ∈ ds, p c = true) {x : Char} (hx : p x = false) (rest : Str) :
    (ds ++ x :: rest).takeWhile p = ds ∧
      (ds ++ x :: rest).dropWhile p = x :: rest := by
  induction ds with
  | nil => simp [List.takeWhile_cons, List.dropWhile_cons, hx]
  | cons c t ih =>
    have hc := h c (List.mem_cons_self c t)
    have iht := ih (fun d hd => h d (List.mem_cons_of_mem c hd))
    simp [List.takeWhile_cons, List.dropWhile_cons, hc, iht.1, iht.2]

/-- The selector text `NAME(n)` for a positional selector. -/
def posSel (name : Str) (n : Nat) : Str := name ++ '(' :: (natDigits n ++ [')'])

theorem parseSelArg_posSel (name : Str) (n : Nat) :
    parseSelArg name (posSel name n) = some n := by
  have hspan : ((natDigits n ++ [')']).span isDigitCh) = (natDigits n, [')']) := by
    rw [List.span_eq_take_drop]
    have := takeWhile_all_append (natDigits_digits n) (x := ')') (by decide) []
    rw [this.1, this.2]
  unfold parseSelArg parseSelArgDigits posSel
  rw [isPrefixOf_self_append]
  simp only [if_true]
  rw [List.drop_left]
  simp only [hspan]
  rw [if_pos ⟨natDigits_ne_nil n, trivial⟩]
  simp [digitsToNat_natDigits]

/-- C1 helper: the four positional-selector texts parse under their own
names. -/
theorem parseSelArg_posSel_TOP (n : Nat) :
    parseSelArg (chars "TOP") (posSel (chars "TOP") n) = some n :=
  parseSelArg_posSel _ n

theorem parseSelArg_TOP_RANK (n : Nat) :
    parseSelArg (chars "TOP") (posSel (chars "RANK") n) = none := rfl

theorem parseSelArg_TOP_NEW (n : Nat) :
    parseSelArg (chars "TOP") (posSel (chars "NEW") n) = none := rfl

theorem parseSelArg_RANK_NEW (n : Nat) :
    parseSelArg (chars "RANK") (posSel (chars "NEW") n) = none := rfl

theorem parseSelText_USERNAME_NEW (n : Nat) :
    parseSelText (chars "USERNAME") (posSel (chars "NEW") n) = none := rfl

theorem idxSel_none {l : List AggregatedStats} {n : Nat}
    (h : n = 0 ∨ l.length < n) : idxSel l n = none := by
  unfold idxSel
  rcases h with rfl | h
  · simp
  · rw [if_neg (by omega)]
    exact List.get?_eq_none.mpr (by omega)

theorem parseSelArg_TOP_ACTIVE (n : Nat) :
    parseSelArg (chars "TOP") (posSel (chars "ACTIVE") n) = none := rfl

theorem parseSelArg_RANK_ACTIVE (n : Nat) :
    parseSelArg (chars "RANK") (posSel (chars "ACTIVE") n) = none := rfl

theorem parseSelText_USERNAME_ACTIVE (n : Nat) :
    parseSelText (chars "USERNAME") (posSel (chars "ACTIVE") n) = none := rfl

theorem parseSelArg_NEW_ACTIVE (n : Nat) :
    parseSelArg (chars "NEW") (posSel (chars "ACTIVE") n) = none := rfl

/-- Out-of-range positional arguments make every positional user selector
resolve to `none`. -/
theorem selectUser_posSel_none (stats : List AggregatedStats) (n : Nat)
    (h : n = 0 ∨ stats.length < n) :
    selectUser stats (posSel (chars "TOP") n) = none ∧
    selectUser stats (posSel (chars "RANK") n) = none ∧
    selectUser stats (posSel (chars "NEW") n) = none ∧
    selectUser stats (posSel (chars "ACTIVE") n) = none := by
  refine ⟨?_, ?_, ?_, ?_⟩
  · unfold selectUser
    rw [parseSelArg_posSel]
    exact idxSel_none h
  · unfold selectUser
    rw [parseSelArg_TOP_RANK, parseSelArg_posSel]
    exact idxSel_none h
  · unfold selectUser
    rw [parseSelArg_TOP_NEW, parseSelArg_RANK_NEW, parseSelText_USERNAME_NEW,
        parseSelArg_posSel]
    refine idxSel_none ?_
    rw [length_sortBy]
    exact h
  · unfold selectUser
    rw [parseSelArg_TOP_ACTIVE, parseSelArg_RANK_ACTIVE,
        parseSelText_USERNAME_ACTIVE, parseSelArg_NEW_ACTIVE,
        parseSelArg_posSel]
    refine idxSel_none ?_
    rw [length_sortBy]
    exact h

/-- A non-SVG occurrence whose entity is not in the allowed-entity list is
skipped: no substitution, no fetch, the working state is unchanged. -/
theorem resolveOne_skip (orgId : Nat) (orgLogin : Str)
    (yaml : ImpactYamlConfig) (rc : ReadmeCfg) (dw : Str) (aw : List Str)
    (oo : List Nat) (P : Providers) (ctx : Option PlaceholderContext)
    (st : Str × ResolveLog) (p : PlaceholderMatch)
    (hsvg : p.entity ≠ chars "SVG") (hent : p.entity ∉ rc.allow.entities) :
    resolveOne orgId orgLogin yaml rc dw aw oo P ctx st p = st := by
  simp only [resolveOne]
  rw [if_neg hsvg, if_pos hent]

/-- A `USER` occurrence whose `TOP(n)` argument exceeds `top_max` is
substituted with its fallback (after the statistics fetch, which the source
performs before the bound check). -/
theorem resolveOne_topOverflow (orgId : Nat) (orgLogin : Str)
    (yaml : ImpactYamlConfig) (rc : ReadmeCfg) (dw : Str) (aw : List Str)
    (oo : List Nat) (P : Providers) (ctx : Option PlaceholderContext)
    (st : Str × ResolveLog) (p : PlaceholderMatch) (nn : Nat)
    (hent : p.entity = chars "USER") (hallow : p.entity ∈ rc.allow.entities)
    (hparse : parseSelArg (chars "TOP") p.selector = some nn)
    (hover : rc.allow.user_selectors.top_max < nn) :
    resolveOne orgId orgLogin yaml rc dw aw oo P ctx st p =
      replaceWith
        (st.1, { st.2 with
          fetches := st.2.fetches ++ [(orgId, getPeriodFromOptions p.options aw dw)] })
        p ((optGet p.options (chars "fallback")).getD []) := by
  simp only [resolveOne]
  rw [if_neg (by rw [hent]; decide), if_neg (by simp [hallow]), if_pos hent,
      hparse]
  rw [if_pos (by simp [hover])]

/-- A `USER` occurrence that passes the entity and `top_max` gates but whose
selector resolves to "not found" is substituted with its fallback. -/
theorem resolveOne_notFound (orgId : Nat) (orgLogin : Str)
    (yaml : ImpactYamlConfig) (rc : ReadmeCfg) (dw : Str) (aw : List Str)
    (oo : List Nat) (P : Providers) (ctx : Option PlaceholderContext)
    (st : Str × ResolveLog) (p : PlaceholderMatch)
    (hent : p.entity = chars "USER") (hallow : p.entity ∈ rc.allow.entities)
    (hno : ∀ m, parseSelArg (chars "TOP") p.selector = some m →
      m ≤ rc.allow.user_selectors.top_max)
    (hsel : selectUser
      (sortByScoreDesc (applyPrivacyFilter orgId
        (P.getOrgStats orgId (getPeriodFromOptions p.options aw dw)) oo))
      p.selector = none) :
    resolveOne orgId orgLogin yaml rc dw aw oo P ctx st p =
      replaceWith
        (st.1, { st.2 with
          fetches := st.2.fetches ++ [(orgId, getPeriodFromOptions p.options aw dw)] })
        p ((optGet p.options (chars "fallback")).getD []) := by
  simp only [resolveOne]
  rw [if_neg (by rw [hent]; decide), if_neg (by simp [hallow]), if_pos hent]
  cases hp : parseSelArg (chars "TOP") p.selector with
  | some m =>
    rw [if_neg (by simp only [Bool.not_eq_true, decide_eq_false_iff_not]
                   exact Nat.not_lt.mpr (hno m hp))]
    rw [hsel]
  | none =>
    rw [if_neg (by simp)]
    rw [hsel]

/-- Each loop iteration appends at most its own occurrence's substitution to
the replacement trace: every appended entry is attributed to `p`. -/
theorem resolveOne_replacements (orgId : Nat) (orgLogin : Str)
    (yaml : ImpactYamlConfig) (rc : ReadmeCfg) (dw : Str) (aw : List Str)
    (oo : List Nat) (P : Providers) (ctx : Option PlaceholderContext)
    (st : Str × ResolveLog) (p : PlaceholderMatch) :
    ∃ tail,
      (resolveOne orgId orgLogin yaml rc dw aw oo P ctx st p).2.replacements =
        st.2.replacements ++ tail ∧ ∀ e ∈ tail, e.1 = p := by
  simp only [resolveOne, replaceWith]
  repeat' split
  all_goals first
    | exact ⟨_, rfl, by simp⟩
    | exact ⟨[], (List.append_nil _).symm, by simp⟩

/-- Folding the loop body over a list of occurrences only ever attributes
replacement-trace entries to occurrences of that list. -/
theorem foldl_resolveOne_replacements (orgId : Nat) (orgLogin : Str)
    (yaml : ImpactYamlConfig) (rc : ReadmeCfg) (dw : Str) (aw : List Str)
    (oo : List Nat) (P : Providers) (ctx : Option PlaceholderContext)
    (l : List PlaceholderMatch) :
    ∀ st, ∀ e ∈ (l.foldl (resolveOne orgId orgLogin yaml rc dw aw oo P ctx)
      st).2.replacements, e ∈ st.2.replacements ∨ e.1 ∈ l := by
  induction l with
  | nil => intro st e he; exact Or.inl he
  | cons p t ih =>
    intro st e he
    rcases ih (resolveOne orgId orgLogin yaml rc dw aw oo P ctx st p) e he with
      h | h
    · obtain ⟨tail, htail, hall⟩ := resolveOne_replacements orgId orgLogin
        yaml rc dw aw oo P ctx st p
      rw [htail] at h
      rcases List.mem_append.mp h with h' | h'
      · exact Or.inl h'
      · exact Or.inr (by rw [hall e h']; exact List.mem_cons_self p t)
    · exact Or.inr (List.mem_cons_of_mem p h)

/-- Every substitution a pass performs is attributed to one of the first
`max_placeholders` parsed occurrences. -/
theorem resolveS_replacements_within_cap (orgId iid : Nat) (orgLogin : Str)
    (text : Str) (yaml : ImpactYamlConfig) (ctx : Option PlaceholderContext)
    (P : Providers) :
    ∀ e ∈ (resolvePlaceholdersS 0 orgId iid orgLogin text yaml ctx
      P).2.2.replacements,
      e.1 ∈ (parsePlaceholder text).take
        ((yaml.readme.getD defaultReadmeCfg).allow.max_placeholders) := by
  intro e he
  simp only [resolvePlaceholdersS] at he
  split at he
  · exact absurd he (by simp [ResolveLog.empty])
  · split at he
    · exact absurd he (by simp [ResolveLog.empty])
    · rcases foldl_resolveOne_replacements _ _ _ _ _ _ _ _ _ _ _ e he with
        h | h
      · exact absurd h (by simp [ResolveLog.empty])
      · exact h

/-- C1: for every statistics list `L` and opted-out set `S`, the privacy
filter returns a list in which no entry's user id is in `S` and which is a
sublist of `L` (so the relative order of survivors is preserved); and no
selector run on the (score-sorted) filtered list can return an opted-out
user. -/
theorem privacy_filter_excludes_opted_out (orgId : Nat)
    (L : List AggregatedStats) (S : List Nat) :
    (∀ u ∈ applyPrivacyFilter orgId L S, u.userId ∉ S) ∧
    (applyPrivacyFilter orgId L S).Sublist L ∧
    (∀ sel u,
      selectUser (sortByScoreDesc (applyPrivacyFilter orgId L S)) sel = some u →
        u.userId ∉ S) := by
  refine ⟨fun u hu => (mem_applyPrivacyFilter hu).2, List.filter_sublist _, ?_⟩
  intro sel u hsel
  have hmem : u ∈ sortBy (fun a b => b.weightedScore ≤ a.weightedScore)
      (applyPrivacyFilter orgId L S) := selectUser_mem hsel
  exact (mem_applyPrivacyFilter (mem_of_sortBy hmem)).2

theorem privacy_filter_excludes_opted_out_witness :
    (mkUser 2 "bob" 7 5).userId ∉ [1] :=
  (privacy_filter_excludes_opted_out 1 aliceBob [1]).2.2 (chars "TOP(1)")
    (mkUser 2 "bob" 7 5) (by decide)

/-- C8: when the mode is not `full`, the pass returns the input text
unchanged (and performs no fetch and no substitution), whatever placeholders
the text contains. -/
theorem non_full_mode_returns_unchanged (s orgId iid : Nat)
    (orgLogin text : Str) (yaml : ImpactYamlConfig)
    (ctx : Option PlaceholderContext) (P : Providers)
    (h : yaml.mode ≠ chars "full") :
    resolvePlaceholdersS s orgId iid orgLogin text yaml ctx P =
      (text, s, ResolveLog.empty) := by
  simp only [resolvePlaceholdersS]
  rw [if_pos h]

def assetsYaml : ImpactYamlConfig :=
  { mode := chars "assets-only", readme := some (rcWith [chars "USER"] 5 100)
    data := none, privacy := none }

def gateDoc : Str :=
  chars "Top: \x7b\x7bIMPACTBOARD:USER.TOP(1).username\x7d\x7d"

theorem non_full_mode_returns_unchanged_witness :
    resolvePlaceholdersS 0 1 9 (chars "acme") gateDoc assetsYaml none
      (provWith aliceBob []) = (gateDoc, 0, ResolveLog.empty) :=
  non_full_mode_returns_unchanged 0 1 9 (chars "acme") gateDoc assetsYaml
    none (provWith aliceBob []) (by decide)

/-- C9: a resolution pass leaves the shared global regex back in its
module-load state (`lastIndex = 0`), so a second pass over the same inputs
produces a byte-identical output. -/
theorem resolution_deterministic (orgId iid : Nat) (orgLogin text : Str)
    (yaml : ImpactYamlConfig) (ctx : Option PlaceholderContext)
    (P : Providers) :
    (resolvePlaceholdersS 0 orgId iid orgLogin text yaml ctx P).2.1 = 0 ∧
    (resolvePlaceholdersS
        ((resolvePlaceholdersS 0 orgId iid orgLogin text yaml ctx P).2.1)
        orgId iid orgLogin text yaml ctx P).1 =
      (resolvePlaceholdersS 0 orgId iid orgLogin text yaml ctx P).1 := by
  have h0 : (resolvePlaceholdersS 0 orgId iid orgLogin text yaml ctx P).2.1 = 0 := by
    simp only [resolvePlaceholdersS, parsePlaceholderS]
    split
    · rfl
    · split <;> rfl
  exact ⟨h0, by rw [h0]⟩

def c2doc : Str :=
  chars "A \x7b\x7bIMPACTBOARD:USER.TOP(1).username | fallback=x\x7d\x7d B"

/-- C2 counterexample: with `entities = [REPO]` and a `USER` occurrence
declaring `fallback=x`, the pass leaves the text unchanged (the claimed
output, with the fallback substituted, differs) and issues no substitution
at all. -/
theorem disallowed_entity_left_literal_cex :
    resolvePlaceholders 1 9 (chars "acme") c2doc
      (fullYaml (rcWith [chars "REPO"] 5 100)) none (provWith aliceBob []) =
      c2doc ∧
    c2doc ≠ chars "A x B" ∧
    (resolvePlaceholdersS 0 1 9 (chars "acme") c2doc
      (fullYaml (rcWith [chars "REPO"] 5 100)) none
      (provWith aliceBob [])).2.2.replacements = [] := by decide

/-- C2 (amended): an occurrence whose entity tag is not `SVG` and not in the
policy's allowed-entity list is skipped entirely — the working text is left
as literal unresolved text and no fallback substitution is issued. -/
theorem disallowed_entity_skipped (orgId : Nat) (orgLogin : Str)
    (yaml : ImpactYamlConfig) (rc : ReadmeCfg) (dw : Str) (aw : List Str)
    (oo : List Nat) (P : Providers) (ctx : Option PlaceholderContext)
    (st : Str × ResolveLog) (p : PlaceholderMatch)
    (hsvg : p.entity ≠ chars "SVG") (hent : p.entity ∉ rc.allow.entities) :
    resolveOne orgId orgLogin yaml rc dw aw oo P ctx st p = st :=
  resolveOne_skip orgId orgLogin yaml rc dw aw oo P ctx st p hsvg hent

def c2p : PlaceholderMatch :=
  { full := chars "\x7b\x7bIMPACTBOARD:USER.TOP(1).username | fallback=x\x7d\x7d"
    entity := chars "USER", selector := chars "TOP(1)"
    field := chars "username", options := [(chars "fallback", chars "x")] }

theorem disallowed_entity_skipped_witness :
    resolveOne 1 (chars "acme") (fullYaml (rcWith [chars "REPO"] 5 100))
      (rcWith [chars "REPO"] 5 100) (chars "30d") [chars "30d"] []
      (provWith aliceBob []) none (c2doc, ResolveLog.empty) c2p =
      (c2doc, ResolveLog.empty) :=
  disallowed_entity_skipped 1 (chars "acme")
    (fullYaml (rcWith [chars "REPO"] 5 100)) (rcWith [chars "REPO"] 5 100)
    (chars "30d") [chars "30d"] [] (provWith aliceBob []) none
    (c2doc, ResolveLog.empty) c2p (by decide) (by decide)

def c3doc : Str :=
  chars "R: \x7b\x7bIMPACTBOARD:USER.RANK(2).username | fallback=none\x7d\x7d"

/-- C3 counterexample: with `top_max = 1`, the occurrence `RANK(2)` still
resolves to the second-ranked user's data instead of the declared
fallback. -/
theorem rank_bypasses_top_max_cex :
    resolvePlaceholders 1 9 (chars "acme") c3doc
      (fullYaml (rcWith [chars "USER"] 1 100)) none (provWith aliceBob []) =
      chars "R: @bob" ∧
    chars "R: @bob" ≠ chars "R: none" := by decide

/-- C3 (amended): the `top_max` bound is enforced for `TOP(n)` only — a
`USER` occurrence whose selector parses as `TOP(n)` with `n > top_max` is
substituted with its fallback (`RANK(n)` is not checked against the bound,
as the counterexample shows). -/
theorem top_bounded_by_top_max (orgId : Nat) (orgLogin : Str)
    (yaml : ImpactYamlConfig) (rc : ReadmeCfg) (dw : Str) (aw : List Str)
    (oo : List Nat) (P : Providers) (ctx : Option PlaceholderContext)
    (st : Str × ResolveLog) (p : PlaceholderMatch) (nn : Nat)
    (hent : p.entity = chars "USER") (hallow : p.entity ∈ rc.allow.entities)
    (hparse : parseSelArg (chars "TOP") p.selector = some nn)
    (hover : rc.allow.user_selectors.top_max < nn) :
    resolveOne orgId orgLogin yaml rc dw aw oo P ctx st p =
      replaceWith
        (st.1, { st.2 with
          fetches := st.2.fetches ++ [(orgId, getPeriodFromOptions p.options aw dw)] })
        p ((optGet p.options (chars "fallback")).getD []) :=
  resolveOne_topOverflow orgId orgLogin yaml rc dw aw oo P ctx st p nn hent
    hallow hparse hover

def c3p : PlaceholderMatch :=
  { full := chars "\x7b\x7bIMPACTBOARD:USER.TOP(3).username | fallback=none\x7d\x7d"
    entity := chars "USER", selector := chars "TOP(3)"
    field := chars "username", options := [(chars "fallback", chars "none")] }

theorem top_bounded_by_top_max_witness :
    resolveOne 1 (chars "acme") (fullYaml (rcWith [chars "USER"] 1 100))
      (rcWith [chars "USER"] 1 100) (chars "30d") [chars "30d"] []
      (provWith aliceBob []) none (chars "F", ResolveLog.empty) c3p =
      (jsReplace (chars "F") c3p.full (chars "none"),
       { ResolveLog.empty with
          fetches := [(1, chars "30d")]
          replacements := [(c3p, chars "none")] }) :=
  (top_bounded_by_top_max 1 (chars "acme")
      (fullYaml (rcWith [chars "USER"] 1 100)) (rcWith [chars "USER"] 1 100)
      (chars "30d") [chars "30d"] [] (provWith aliceBob []) none
      (chars "F", ResolveLog.empty) c3p 3 rfl (by decide) (by decide)
      (by decide)).trans (by decide)

def c4doc : Str :=
  chars "A \x7b\x7bIMPACTBOARD:USER.TOP(1).username\x7d\x7d B \x7b\x7bIMPACTBOARD:USER.TOP(1).commits\x7d\x7d"

/-- C4: a document with two `USER` placeholders referencing the same
`(org, window)` pair causes two identical statistics fetches in one pass —
the fetch is per occurrence, not cached per window. -/
theorem stats_fetched_per_placeholder :
    (resolvePlaceholdersS 0 1 9 (chars "acme") c4doc
      (fullYaml (rcWith [chars "USER"] 5 100)) none
      (provWith aliceBob [])).2.2.fetches =
      [(1, chars "30d"), (1, chars "30d")] ∧
    ¬ ((resolvePlaceholdersS 0 1 9 (chars "acme") c4doc
      (fullYaml (rcWith [chars "USER"] 5 100)) none
      (provWith aliceBob [])).2.2.fetches.length ≤ 1) := by decide

def c5doc : Str :=
  chars "C: \x7b\x7bIMPACTBOARD:USER.TOP(1).commits | format=compact\x7d\x7d"

/-- C5: an occurrence carrying `format=compact` on a commits value of 1500
is substituted with the raw `"1500"`; `formatValue` (which would produce
`"1.5K"`) is never applied by the orchestrator. -/
theorem format_option_ignored :
    resolvePlaceholders 1 9 (chars "acme") c5doc
      (fullYaml (rcWith [chars "USER"] 5 100)) none (provWith aliceBob []) =
      chars "C: 1500" ∧
    formatValue (chars "1500") (some (chars "compact")) = chars "1.5K" ∧
    chars "C: 1500" ≠ chars "C: 1.5K" := by decide

def c10lower : Str := chars "N: \x7b\x7bIMPACTBOARD:ORG.active_users\x7d\x7d"
def c10upper : Str := chars "N: \x7b\x7bIMPACTBOARD:ORG.ACTIVE_USERS\x7d\x7d"

/-- C10: the ORG placeholder written with its documented lowercase field
(`active_users`) in the selector slot is not recognized by the parser (the
selector class is `[A-Z_]+`), so the text passes through unchanged; the
uppercase spelling is recognized and resolves to the stringified summary
value. -/
theorem org_lowercase_not_recognized :
    parsePlaceholder c10lower = [] ∧
    resolvePlaceholders 1 9 (chars "acme") c10lower
      (fullYaml (rcWith [chars "ORG"] 5 100)) none (provWith [] []) =
      c10lower ∧
    resolvePlaceholders 1 9 (chars "acme") c10upper
      (fullYaml (rcWith [chars "ORG"] 5 100)) none (provWith [] []) =
      chars "N: 7" := by decide

def c6doc : Str :=
  chars "A \x7b\x7bIMPACTBOARD:ORG.ACTIVE_USERS\x7d\x7d B \x7b\x7bIMPACTBOARD:ORG.TOTAL_REPOS\x7d\x7d C \x7b\x7bIMPACTBOARD:ORG.HEALTH_SCORE | fallback=Z\x7d\x7d"

def c6out : Str :=
  chars "A 7 B 3 C \x7b\x7bIMPACTBOARD:ORG.HEALTH_SCORE | fallback=Z\x7d\x7d"

/-- C6: every substitution a pass performs is attributed to one of the first
`max_placeholders` parsed occurrences (occurrences beyond the cap are out of
scope); concretely, with `max_placeholders = 2` and three valid placeholders
the third is left as literal unresolved text — its declared fallback `Z` is
not substituted. -/
theorem placeholder_cap_scope :
    (∀ (orgId iid : Nat) (orgLogin text : Str) (yaml : ImpactYamlConfig)
       (ctx : Option PlaceholderContext) (P : Providers),
      ∀ e ∈ (resolvePlaceholdersS 0 orgId iid orgLogin text yaml ctx
        P).2.2.replacements,
        e.1 ∈ (parsePlaceholder text).take
          ((yaml.readme.getD defaultReadmeCfg).allow.max_placeholders)) ∧
    (parsePlaceholder c6doc).length = 3 ∧
    resolvePlaceholders 1 9 (chars "acme") c6doc
      (fullYaml (rcWith [chars "ORG"] 5 2)) none (provWith [] []) = c6out :=
  ⟨resolveS_replacements_within_cap, by decide, by decide⟩

def c6p1 : PlaceholderMatch :=
  { full := chars "\x7b\x7bIMPACTBOARD:ORG.ACTIVE_USERS\x7d\x7d"
    entity := chars "ORG", selector := chars "ACTIVE_USERS", field := []
    options := [] }

theorem placeholder_cap_scope_witness :
    c6p1 ∈ (parsePlaceholder c6doc).take 2 :=
  placeholder_cap_scope.1 1 9 (chars "acme") c6doc
    (fullYaml (rcWith [chars "ORG"] 5 2)) none (provWith [] [])
    (c6p1, chars "7") (by decide)

def c7p : PlaceholderMatch :=
  { full := chars "\x7b\x7bIMPACTBOARD:USER.TOP(3).username | fallback=none\x7d\x7d"
    entity := chars "USER", selector := chars "TOP(3)"
    field := chars "username", options := [(chars "fallback", chars "none")] }

/-- C7: positional user selectors (`TOP`, `RANK`, `NEW`, `ACTIVE`) with an
argument of 0 or beyond the list length resolve to "not found" (no
exception is possible: `selectUser` is a total function), and a `USER`
occurrence that passes the entity and `top_max` gates but whose selector
finds nothing is substituted with its declared fallback (the empty string
when none was declared) — never an error message and never left as the
literal placeholder. -/
theorem out_of_range_selector_fallback :
    (∀ (stats : List AggregatedStats) (n : Nat),
      (n = 0 ∨ stats.length < n) →
      selectUser stats (posSel (chars "TOP") n) = none ∧
      selectUser stats (posSel (chars "RANK") n) = none ∧
      selectUser stats (posSel (chars "NEW") n) = none ∧
      selectUser stats (posSel (chars "ACTIVE") n) = none) ∧
    (∀ (orgId : Nat) (orgLogin : Str) (yaml : ImpactYamlConfig)
       (rc : ReadmeCfg) (dw : Str) (aw : List Str) (oo : List Nat)
       (P : Providers) (ctx : Option PlaceholderContext)
       (st : Str × ResolveLog) (p : PlaceholderMatch),
      p.entity = chars "USER" → p.entity ∈ rc.allow.entities →
      (∀ m, parseSelArg (chars "TOP") p.selector = some m →
        m ≤ rc.allow.user_selectors.top_max) →
      selectUser (sortByScoreDesc (applyPrivacyFilter orgId
        (P.getOrgStats orgId (getPeriodFromOptions p.options aw dw)) oo))
        p.selector = none →
      resolveOne orgId orgLogin yaml rc dw aw oo P ctx st p =
        replaceWith
          (st.1, { st.2 with
            fetches := st.2.fetches ++
              [(orgId, getPeriodFromOptions p.options aw dw)] })
          p ((optGet p.options (chars "fallback")).getD [])) :=
  ⟨selectUser_posSel_none,
   fun orgId orgLogin yaml rc dw aw oo P ctx st p h1 h2 h3 h4 =>
     resolveOne_notFound orgId orgLogin yaml rc dw aw oo P ctx st p h1 h2
       h3 h4⟩

theorem out_of_range_selector_fallback_witness :
    selectUser [] (posSel (chars "TOP") 0) = none ∧
    resolveOne 1 (chars "acme") (fullYaml (rcWith [chars "USER"] 5 100))
      (rcWith [chars "USER"] 5 100) (chars "30d") [chars "30d"] []
      (provWith aliceBob []) none (chars "F", ResolveLog.empty) c7p =
      (jsReplace (chars "F") c7p.full (chars "none"),
       { ResolveLog.empty with
          fetches := [(1, chars "30d")]
          replacements := [(c7p, chars "none")] }) :=
  ⟨(out_of_range_selector_fallback.1 [] 0 (Or.inl rfl)).1,
   (out_of_range_selector_fallback.2 1 (chars "acme")
      (fullYaml (rcWith [chars "USER"] 5 100)) (rcWith [chars "USER"] 5 100)
      (chars "30d") [chars "30d"] [] (provWith aliceBob []) none
      (chars "F", ResolveLog.empty) c7p rfl (by decide)
      (fun m hm => by
        have h3 : parseSelArg (chars "TOP") c7p.selector = some 3 := by decide
        rw [h3] at hm
        injection hm with h
        rw [← h]
        decide)
      (by decide)).trans (by decide)⟩
